import Mathlib

/-!
Verification of the goharproxy HAR-recording proxy (`harproxy.go`) against its
natural-language specification.  The Go source is shallowly embedded: pure
helpers become Lean functions, the concurrent capture pipeline becomes an
explicit labelled transition system, and calls into the Go standard library
(DNS lookup, IP parsing, the wire round trip) are passed in as oracle values.
-/

set_option autoImplicit false

/-! ### Host rewriting (`replaceHost`, `AddHostEntries`) -/

/-- One host-redirection rule, from `type ProxyHosts` in `harproxy.go`
(fields `Host` and `NewHost`). -/
structure ProxyHosts where
  Host : String
  NewHost : String
deriving DecidableEq, Repr, Inhabited

/-- Embedding of `replaceHost` (`harproxy.go` lines 173-181): scan the
instance's `hostEntries` in order; on the first rule whose `Host` equals the
request's `URL.Host` exactly, replace the host with that rule's `NewHost` and
return; otherwise leave the host unchanged. -/
def replaceHost (entries : List ProxyHosts) (host : String) : String :=
  match entries with
  | [] => host
  | e :: rest => if host == e.Host then e.NewHost else replaceHost rest host

/-- Embedding of `AddHostEntries` (`harproxy.go` lines 206-219).  The Go code
manipulates a slice: it reallocates a backing array of length `(n+1)*2` when
the needed length `n` exceeds the capacity, copies the old entries in,
re-slices to length `n`, and copies the new entries into positions `m..n`.
We model the slice as its element list plus its capacity; unused backing
cells hold the zero value of `ProxyHosts`. -/
def addHostEntries (entries : List ProxyHosts) (capacity : Nat)
    (hostEntries : List ProxyHosts) : List ProxyHosts × Nat :=
  let m := entries.length
  let n := m + hostEntries.length
  let (backing, capacity') :=
    if n > capacity then
      (entries ++ List.replicate ((n + 1) * 2 - m) default, (n + 1) * 2)
    else
      (entries ++ List.replicate (capacity - m) default, capacity)
  let sliced := backing.take n
  ((sliced.take m) ++ hostEntries.take (n - m), capacity')

/-- The slice juggling in `AddHostEntries` amounts to list append. -/
theorem addHostEntries_eq_append (entries : List ProxyHosts) (capacity : Nat)
    (hostEntries : List ProxyHosts) :
    (addHostEntries entries capacity hostEntries).1 = entries ++ hostEntries := by
  unfold addHostEntries
  by_cases h : entries.length + hostEntries.length > capacity <;>
    simp [h, List.take_append_eq_append_take, List.take_replicate]

/-- Appending rules does not change `replaceHost` for a host already matched
by an existing rule. -/
theorem replaceHost_append_of_match (rules more : List ProxyHosts) (host : String)
    (h : ∃ e ∈ rules, e.Host = host) :
    replaceHost (rules ++ more) host = replaceHost rules host := by
  induction rules with
  | nil => simp at h
  | cons e rest ih =>
    by_cases he : host == e.Host
    · simp [replaceHost, he]
    · obtain ⟨r, hr, hrh⟩ := h
      rcases List.mem_cons.mp hr with hr1 | hr1
      · subst hr1
        simp [beq_iff_eq] at he
        exact absurd hrh.symm he
      · simp only [List.cons_append, replaceHost, he, if_false]
        exact ih ⟨r, hr1, hrh⟩

/-- C9: Host rewriting scans the rule list in insertion order and replaces the
request host with the replacement of the first rule whose match host equals
the request host exactly; a request matching no rule is unchanged; and
appending further rules never changes the result for a request already matched
by an earlier rule (first match wins). -/
theorem replaceHost_first_match_wins (rules : List ProxyHosts) (host : String)
    (capacity : Nat) (more : List ProxyHosts) :
    ((∀ e ∈ rules, e.Host ≠ host) → replaceHost rules host = host) ∧
    (∀ pre r post, rules = pre ++ r :: post → (∀ e ∈ pre, e.Host ≠ host) →
      r.Host = host → replaceHost rules host = r.NewHost) ∧
    ((∃ e ∈ rules, e.Host = host) →
      replaceHost (addHostEntries rules capacity more).1 host = replaceHost rules host) := by
  refine ⟨?_, ?_, ?_⟩
  · intro hnone
    induction rules with
    | nil => rfl
    | cons e rest ih =>
      have he : ¬ (host == e.Host) := by
        simp [beq_iff_eq]
        exact fun h => (hnone e (List.mem_cons_self e rest)) h.symm
      simp only [replaceHost, he, if_false]
      exact ih fun x hx => hnone x (List.mem_cons_of_mem e hx)
  · intro pre r post hsplit hpre hr
    subst hsplit
    induction pre with
    | nil => simp [replaceHost, hr]
    | cons e rest ih =>
      have he : ¬ (host == e.Host) := by
        simp [beq_iff_eq]
        exact fun h => (hpre e (List.mem_cons_self e rest)) h.symm
      simp only [List.cons_append, replaceHost, he, if_false]
      exact ih fun x hx => hpre x (List.mem_cons_of_mem e hx)
  · intro hmatch
    rw [addHostEntries_eq_append]
    exact replaceHost_append_of_match rules more host hmatch

/-- Concrete check of C9: rule `a.test → b.test` rewrites `a.test`, leaves
`other.test` alone, and appending a clashing rule changes nothing. -/
theorem replaceHost_first_match_wins_witness :
    replaceHost [⟨"a.test", "b.test"⟩] "a.test" = "b.test" ∧
    replaceHost [⟨"a.test", "b.test"⟩] "other.test" = "other.test" ∧
    replaceHost (addHostEntries [⟨"a.test", "b.test"⟩] 100 [⟨"a.test", "c.test"⟩]).1
      "a.test" = replaceHost [⟨"a.test", "b.test"⟩] "a.test" := by
  refine ⟨?_, ?_, ?_⟩
  · exact (replaceHost_first_match_wins [⟨"a.test", "b.test"⟩] "a.test" 100 []).2.1
      [] ⟨"a.test", "b.test"⟩ [] rfl (by simp) rfl
  · exact (replaceHost_first_match_wins [⟨"a.test", "b.test"⟩] "other.test" 100 []).1
      (by decide)
  · exact (replaceHost_first_match_wins [⟨"a.test", "b.test"⟩] "a.test" 100
      [⟨"a.test", "c.test"⟩]).2.2 ⟨⟨"a.test", "b.test"⟩, by simp, rfl⟩

/-! ### Draining (`WaitForEntries`) -/

/-- Embedding of `WaitForEntries` (`harproxy.go` lines 262-272).  The loop
re-evaluates `len(proxy.entryChannel) > 0 || proxy.entriesInProcess > 0`;
`obs k` is the pair (channel length, in-process counter) observed at the
evaluation performed when `secs = k`.  Each iteration sleeps one second and
increments `secs`; when `secs` passes 10 the body only logs a warning (we
record the values of `secs` at which a warning fires).  The Go loop has no
exit other than the guard turning false, so we run it on explicit `fuel`:
`none` means the loop is still running after `fuel` iterations, and
`some (secs, warns)` means it returned with that final `secs` and that
warning log. -/
def waitForEntries (obs : Nat → Nat × Nat) (fuel secs : Nat) (warns : List Nat) :
    Option (Nat × List Nat) :=
  match fuel with
  | 0 => none
  | fuel + 1 =>
    if 0 < (obs secs).1 || 0 < (obs secs).2 then
      waitForEntries obs fuel (secs + 1)
        (if secs + 1 > 10 then warns ++ [secs + 1] else warns)
    else
      some (secs, warns)

/-- If the loop returns, it returned at the guard evaluation it reports. -/
theorem waitForEntries_returns_drained (obs : Nat → Nat × Nat) :
    ∀ (fuel secs : Nat) (warns : List Nat) (k : Nat) (ws : List Nat),
      waitForEntries obs fuel secs warns = some (k, ws) →
      (obs k).1 = 0 ∧ (obs k).2 = 0 := by
  intro fuel
  induction fuel with
  | zero => intro secs warns k ws h; simp [waitForEntries] at h
  | succ fuel ih =>
    intro secs warns k ws h
    by_cases hg : 0 < (obs secs).1 || 0 < (obs secs).2
    · rw [waitForEntries, if_pos hg] at h
      exact ih _ _ k ws h
    · rw [waitForEntries, if_neg hg] at h
      simp only [Bool.or_eq_true, decide_eq_true_eq, not_or, Nat.not_lt,
        Nat.le_zero] at hg
      cases h
      exact ⟨hg.1, hg.2⟩

/-- The warning accumulator never influences whether or where the loop exits. -/
theorem waitForEntries_warns_irrelevant (obs : Nat → Nat × Nat) :
    ∀ (fuel secs : Nat) (warns warns' : List Nat),
      (waitForEntries obs fuel secs warns).map Prod.fst =
      (waitForEntries obs fuel secs warns').map Prod.fst := by
  intro fuel
  induction fuel with
  | zero => intro secs warns warns'; rfl
  | succ fuel ih =>
    intro secs warns warns'
    by_cases hg : 0 < (obs secs).1 || 0 < (obs secs).2
    · rw [waitForEntries, waitForEntries, if_pos hg, if_pos hg]
      exact ih _ _ _
    · rw [waitForEntries, waitForEntries, if_neg hg, if_neg hg]
      rfl

/-- C7: `WaitForEntries` returns only at a poll where the capture channel is
empty and the in-flight counter is zero; if work remains at every poll it
never returns, no matter how much fuel it is given (past the 10-second
threshold it only accumulates warnings — the warning state never changes the
control flow). -/
theorem waitForEntries_never_gives_up (obs : Nat → Nat × Nat) (fuel secs : Nat)
    (warns warns' : List Nat) :
    (∀ (k : Nat) (ws : List Nat), waitForEntries obs fuel secs warns = some (k, ws) →
      (obs k).1 = 0 ∧ (obs k).2 = 0) ∧
    ((∀ j, 0 < (obs j).1 ∨ 0 < (obs j).2) →
      waitForEntries obs fuel secs warns = none) ∧
    ((waitForEntries obs fuel secs warns).map Prod.fst =
      (waitForEntries obs fuel secs warns').map Prod.fst) := by
  refine ⟨fun k ws h => waitForEntries_returns_drained obs fuel secs warns k ws h,
    ?_, waitForEntries_warns_irrelevant obs fuel secs warns warns'⟩
  intro hbusy
  induction fuel generalizing secs warns with
  | zero => rfl
  | succ fuel ih =>
    have hg : (0 < (obs secs).1 || 0 < (obs secs).2) = true := by
      rcases hbusy secs with h | h <;> simp [h]
    rw [waitForEntries, if_pos hg]
    exact ih _ _

/-- Concrete check of C7: with the counter busy for the first two polls the
loop exits at the third; with the counter busy forever it never returns
within 100 iterations. -/
theorem waitForEntries_never_gives_up_witness :
    ((fun j => if j < 2 then ((0 : Nat), (1 : Nat)) else (0, 0)) 2).1 = 0 ∧
    ((fun j => if j < 2 then ((0 : Nat), (1 : Nat)) else (0, 0)) 2).2 = 0 ∧
    waitForEntries (fun _ => (0, 1)) 100 0 [] = none := by
  have h1 := (waitForEntries_never_gives_up
    (fun j => if j < 2 then ((0 : Nat), (1 : Nat)) else (0, 0)) 5 0 [] [3]).1
    2 [] (by decide)
  have h2 := (waitForEntries_never_gives_up (fun _ => ((0 : Nat), (1 : Nat)))
    100 0 [] []).2.1 (fun _ => Or.inr Nat.one_pos)
  exact ⟨h1.1, h1.2, h2⟩

/-! ### Server-IP resolution (`fillIpAddress`) -/

/-- A `net.IP` value: the underlying byte slice (4 bytes, or 16 bytes for the
IPv6 representation) together with the text that the standard library's
`ip.String()` renders for it.  `bytes` drives the embedded logic; `text` is
the external library's canonical rendering, carried as an oracle. -/
structure IPAddr where
  bytes : List Nat
  text : String
deriving DecidableEq, Repr

/-- Embedding of Go's `ip.To4() != nil`: true when the address is a 4-byte
slice or a 16-byte slice carrying the IPv4-mapped marker `::ffff:a.b.c.d`. -/
def IPAddr.isTo4 (ip : IPAddr) : Bool :=
  ip.bytes.length == 4 ||
    (ip.bytes.length == 16 && ip.bytes.take 12 == [0, 0, 0, 0, 0, 0, 0, 0, 0, 0, 255, 255])

/-- Go's `string(ip)` conversion applied to a `net.IP`: it reinterprets the
raw address bytes as a string, byte for byte — it does not render the
address's textual form. -/
def goStringOfBytes (ip : IPAddr) : String :=
  String.mk (ip.bytes.map Char.ofNat)

/-- Embedding of `fillIpAddress` (`harproxy.go` lines 187-204) after the host
has been extracted from `req.URL.Host` by `net.SplitHostPort`.  The two
standard-library calls are passed as oracle results: `parseResult` is
`net.ParseIP(host)` (`none` when the host is not a literal address) and
`lookupResult` is `net.LookupIP(host)` (`none` when resolution failed).  The
field starts out as the empty string; a successful parse stores `string(ip)`
(the raw bytes); then, if the lookup succeeded, the first returned address
with `To4() != nil` overwrites the field with `ip.String()` and the function
returns. -/
def fillIpAddress (parseResult : Option IPAddr)
    (lookupResult : Option (List IPAddr)) : String :=
  let afterParse :=
    match parseResult with
    | some ip => goStringOfBytes ip
    | none => ""
  match lookupResult with
  | some ipaddr =>
    match ipaddr.find? (fun ip => ip.isTo4) with
    | some ip => ip.text
    | none => afterParse
  | none => afterParse

/-- The 16-byte representation of the IPv6 loopback literal `::1`, with the
standard library's rendering of it. -/
def ipv6Loopback : IPAddr :=
  ⟨[0, 0, 0, 0, 0, 0, 0, 0, 0, 0, 0, 0, 0, 0, 0, 1], "::1"⟩

/-- C8 evaluated at the failing input: the request host is the literal IPv6
address `::1`, so `net.ParseIP` succeeds and `net.LookupIP` returns that same
address (resolution of a literal never performs DNS and never fails).  The
claim says the literal address is used directly, yet the resulting server-IP
field is the raw sixteen address bytes reinterpreted as a string — `string(ip)`
instead of `ip.String()` — which is neither the literal `"::1"` nor empty. -/
theorem fillIpAddress_ipv6_literal_garbled :
    fillIpAddress (some ipv6Loopback) (some [ipv6Loopback]) =
      String.mk ((List.replicate 15 (Char.ofNat 0)) ++ [Char.ofNat 1]) ∧
    fillIpAddress (some ipv6Loopback) (some [ipv6Loopback]) ≠ "::1" ∧
    fillIpAddress (some ipv6Loopback) (some [ipv6Loopback]) ≠ "" := by
  refine ⟨?_, ?_, ?_⟩ <;> decide

/-! ### The capture interceptor's round-trip wrapper (`createProxy`) -/

/-- The statements of the capture path in `createProxy` (`harproxy.go` lines
101-121), in source order.  `recordStart` is line 103 (`reqAndResp.start =
time.Now()`); `invokeEngine` is the hand-off of the request to the forwarding
engine (the hook returns at line 120 and the engine later calls the installed
round tripper); `recordEnd` is line 110 (`reqAndResp.end = time.Now()`);
`detailedRoundTrip` is line 111, the actual wire round trip; `copyResponse`
covers lines 112-116; `publish` is line 117. -/
inductive RtStmt
  | recordStart
  | invokeEngine
  | recordEnd
  | detailedRoundTrip
  | copyResponse
  | publish
deriving DecidableEq, Repr

/-- The capture path exactly as the statements are ordered in the source:
the end timestamp is recorded at line 110, before `tr.DetailedRoundTrip`
runs at line 111. -/
def capturePath : List RtStmt :=
  [.recordStart, .invokeEngine, .recordEnd, .detailedRoundTrip, .copyResponse, .publish]

/-- Timestamp state threaded through the capture path: a nanosecond clock,
the recorded start and end timestamps, the time at which the response
actually arrived from the wire, and whether the transaction was published. -/
structure RtState where
  clock : Nat
  startTs : Option Nat
  endTs : Option Nat
  respArrival : Option Nat
  published : Bool
deriving DecidableEq, Repr

/-- Effect of one capture-path statement on the timestamp state.  `d` is the
engine's processing delay between the request hook and the round tripper
being invoked; `w` is the wire time `tr.DetailedRoundTrip` takes before the
response (or error) arrives. -/
def execRtStmt (d w : Nat) (s : RtState) : RtStmt → RtState
  | .recordStart => { s with startTs := some s.clock }
  | .invokeEngine => { s with clock := s.clock + d }
  | .recordEnd => { s with endTs := some s.clock }
  | .detailedRoundTrip => { s with clock := s.clock + w, respArrival := some (s.clock + w) }
  | .copyResponse => s
  | .publish => { s with published := true }

/-- Run the whole capture path from clock zero. -/
def execCapturePath (d w : Nat) : RtState :=
  capturePath.foldl (execRtStmt d w) ⟨0, none, none, none, false⟩

/-- Embedding of line 159: `harEntry.Time =
reqAndResp.end.Sub(reqAndResp.start).Nanoseconds() / 1e6`, the entry's
elapsed time in milliseconds. -/
def harEntryTime (startNs endNs : Nat) : Nat :=
  (endNs - startNs) / 1000000

/-- C3 evaluated at a failing input: one transaction whose wire round trip
takes five seconds (engine delay 0).  The code records the end timestamp at
line 110, before `tr.DetailedRoundTrip` runs at line 111, so the recorded end
is clock 0 while the response only arrives at clock 5e9; the entry's Time
field is 0 ms, not the 5000 ms that an end timestamp taken when the response
arrives would give.  The recorded elapsed time therefore does not cover the
network round trip. -/
theorem capturePath_end_recorded_before_wire :
    (execCapturePath 0 5000000000).startTs = some 0 ∧
    (execCapturePath 0 5000000000).endTs = some 0 ∧
    (execCapturePath 0 5000000000).respArrival = some 5000000000 ∧
    harEntryTime 0 0 = 0 ∧
    harEntryTime 0 5000000000 = 5000 := by
  refine ⟨rfl, rfl, rfl, rfl, ?_⟩
  norm_num [harEntryTime]

/-! ### The round-trip wrapper's response branch and errored round trips -/

/-- Outcome of running a piece of Go code that may panic. -/
inductive GoOutcome (α : Type)
  | ok (val : α)
  | panicked (msg : String)
deriving DecidableEq, Repr

/-- The slice of an `http.Response` the wrapper's branch touches. -/
structure HttpResponse where
  contentLength : Int
deriving DecidableEq, Repr

/-- Embedding of the response branch of the round-trip wrapper
(`harproxy.go` lines 111-118).  `tr.DetailedRoundTrip` returns `(resp, err)`;
`resp` is `none` exactly when the round trip failed with an error.  The code
then evaluates `captureContent && resp.ContentLength > 0`: when
`captureContent` is false the right operand is short-circuited away, but when
it is true the field selection `resp.ContentLength` dereferences the response
pointer, and on a nil response the goroutine panics.  Otherwise the
transaction is published on the capture channel (line 117) and the result
returned.  `captureContent` is a package-level toggle declared outside
`harproxy.go`; it is passed as a parameter.  The result records the response
stored into the transaction and whether the publish was reached. -/
def roundTripResponseBranch (captureContent : Bool) (resp : Option HttpResponse) :
    GoOutcome (Option HttpResponse × Bool) :=
  if captureContent then
    match resp with
    | none =>
      GoOutcome.panicked "runtime error: invalid memory address or nil pointer dereference"
    | some r =>
      if r.contentLength > 0 then GoOutcome.ok (some r, true)
      else GoOutcome.ok (some r, true)
  else GoOutcome.ok (resp, true)

/-- C4 evaluated at a failing input: body capture is enabled and the round
trip yields an error instead of a response (`resp` nil).  The response branch
panics on the nil dereference instead of publishing the transaction — the
capture path aborts the proxy goroutine.  With capture disabled the same
errored round trip is published fine, showing the abort is exactly the
response-absent capture case the claim rules out. -/
theorem roundTripResponseBranch_panics_on_error :
    roundTripResponseBranch true none =
      GoOutcome.panicked "runtime error: invalid memory address or nil pointer dereference" ∧
    (∀ out, roundTripResponseBranch true none ≠ GoOutcome.ok out) ∧
    roundTripResponseBranch false none = GoOutcome.ok (none, true) := by
  refine ⟨rfl, ?_, rfl⟩
  intro out h
  simp [roundTripResponseBranch] at h

/-! ### Instance start and bind failure (`Start`) -/

/-- What `Start` (`harproxy.go` lines 221-239) does once `net.Listen`'s
result is known. -/
inductive StartOutcome
  | processExit (msg : String)
  | started (port : Nat)
deriving DecidableEq, Repr

/-- Embedding of the bind step of `Start` (lines 222-228): the result of
`net.Listen("tcp", ":port")` is passed as an oracle.  On error the code calls
`log.Fatal("listen:", err)`, which logs and then terminates the entire
hosting process with exit status 1; on success the proxy records the bound
port and serving begins in the background. -/
def startBind (bindResult : Except String Nat) : StartOutcome :=
  match bindResult with
  | .error e => .processExit ("listen:" ++ e)
  | .ok port => .started port

/-- Whether the outcome of `Start` terminates the hosting process. -/
def startExitsProcess : StartOutcome → Bool
  | .processExit _ => true
  | .started _ => false

/-- C5 as stated is false: on a bind failure `Start` does not surface the
error to the control-plane caller (it has no error result at all); it calls
`log.Fatal`, which kills the hosting process and with it the registry and
every other running instance. -/
theorem startBind_failure_kills_process :
    startBind (Except.error "bind: address already in use") =
      StartOutcome.processExit "listen:bind: address already in use" ∧
    startExitsProcess (startBind (Except.error "bind: address already in use")) = true := by
  exact ⟨rfl, rfl⟩

/-- C5 amended: a failure to bind the requested port during instance creation
terminates the entire hosting process via `log.Fatal` — the error is never
returned to the control-plane caller and no registry entry or other instance
survives it; only a successful bind lets the process keep operating, with the
instance started on the bound port. -/
theorem startBind_failure_amended (msg : String) (port : Nat) :
    startBind (Except.error msg) = StartOutcome.processExit ("listen:" ++ msg) ∧
    startExitsProcess (startBind (Except.error msg)) = true ∧
    startBind (Except.ok port) = StartOutcome.started port ∧
    startExitsProcess (startBind (Except.ok port)) = false :=
  ⟨rfl, rfl, rfl, rfl⟩

/-! ### Reading and resetting the HAR log (`getHarLog`, `ClearEntries`) -/

/-- A recorded HAR entry.  The full entry type lives in `har.go`, which is
not part of the provided source; the claims settled here only need entries to
be distinguishable values, so a single field stands for the entry's payload. -/
structure HarEntry where
  Time : Nat
deriving DecidableEq, Repr, Inhabited

/-- The HAR log: the ordered entry sequence, mirroring the `Entries` field
assigned by `ClearEntries`. -/
structure HarLog where
  Entries : List HarEntry
deriving DecidableEq, Repr

/-- Modelled from the spec: `makeNewEntries`, defined in `har.go` which is
not among the provided sources, produces the fresh entry sequence a reset
installs; per the spec a reset "atomically swaps the sequence for a new empty
one", so it is the empty sequence. -/
def makeNewEntries : List HarEntry := []

/-- Embedding of `ClearEntries` (`harproxy.go` lines 250-254): the log's
`Entries` field is set to nil and then to `makeNewEntries()`. -/
def clearEntries (log : HarLog) : HarLog :=
  { log with Entries := makeNewEntries }

/-- The instance state the `getHarLog` handler touches: the HAR log plus the
two quantities `WaitForEntries` polls (capture-channel length and in-process
counter). -/
structure DrainableProxy where
  harLog : HarLog
  chanLen : Nat
  inProcess : Nat
deriving DecidableEq, Repr

/-- Embedding of the control-plane handler `getHarLog` (`harproxy.go` lines
319-327), serving PUT /proxy/\x7bport\x7d/har: it calls `WaitForEntries`,
serializes and writes the current `HarLog`, then calls `ClearEntries`.  With
no intervening traffic the polled quantities are static, so the wait is run
on the constant observation; `none` means the handler is still blocked in
`WaitForEntries`, and `some (body, p')` gives the response body (the
serialized entry list) and the instance state after the reset. -/
def getHarLog (p : DrainableProxy) : Option (List HarEntry × DrainableProxy) :=
  match waitForEntries (fun _ => (p.chanLen, p.inProcess)) 1 0 [] with
  | none => none
  | some _ => some (p.harLog.Entries, { p with harLog := clearEntries p.harLog })

/-- C6: on a drained instance, a PUT /proxy/\x7bport\x7d/har request returns the
current log and resets it, so an immediately following second drain-and-read
with no intervening traffic returns a log with zero entries. -/
theorem getHarLog_second_read_empty (p : DrainableProxy)
    (h1 : p.chanLen = 0) (h2 : p.inProcess = 0) :
    getHarLog p = some (p.harLog.Entries, ⟨⟨[]⟩, p.chanLen, p.inProcess⟩) ∧
    getHarLog ⟨⟨[]⟩, p.chanLen, p.inProcess⟩ =
      some ([], ⟨⟨[]⟩, p.chanLen, p.inProcess⟩) := by
  obtain ⟨log, cl, ip⟩ := p
  cases h1
  cases h2
  exact ⟨rfl, rfl⟩

/-- Concrete check of C6: an instance holding one entry and nothing in
flight returns that entry and resets; the second read returns zero entries. -/
theorem getHarLog_second_read_empty_witness :
    getHarLog ⟨⟨[⟨7⟩]⟩, 0, 0⟩ = some ([⟨7⟩], ⟨⟨[]⟩, 0, 0⟩) ∧
    getHarLog ⟨⟨[]⟩, 0, 0⟩ = some ([], ⟨⟨[]⟩, 0, 0⟩) :=
  getHarLog_second_read_empty ⟨⟨[⟨7⟩]⟩, 0, 0⟩ rfl rfl

/-! ### The capture pipeline as a labelled transition system (C2, C10) -/

/-- State of one instance's capture pipeline: the interceptor goroutines
blocked at the publish `proxy.entryChannel <- *reqAndResp` (line 117), the
channel's buffer contents, the consumer loop of `processEntriesFunc` (lines
146-166) — `holding` is true between the receive at line 148 and the counter
increment at line 153 — the `entriesInProcess` counter, the transform
goroutines before (`tasksPending`) and after (`tasksAppended`) the
`HarLog.addEntry` call at line 161, and the number of entries in the log. -/
structure PipeState where
  pendingSends : Nat
  buffered : List Unit
  holding : Bool
  inProcess : Nat
  tasksPending : Nat
  tasksAppended : Nat
  logLen : Nat
deriving DecidableEq, Repr

/-- Scheduler choices in the capture pipeline.  `rendezvous` completes a
blocked publish by pairing it with the consumer's receive (the only way a
send finishes on a zero-capacity channel); `bufferSend`/`bufferRecv` are the
buffered-channel alternatives, enabled only when capacity is free;
`dispatch` is the consumer running line 153-154 (increment the counter and
spawn the transform goroutine); `appendEntry` is a transform goroutine
reaching line 161; `decrement` is line 162. -/
inductive PipeLabel
  | rendezvous
  | bufferSend
  | bufferRecv
  | dispatch
  | appendEntry
  | decrement
deriving DecidableEq, Repr

/-- One scheduling step of the capture pipeline on a channel of capacity
`cap`; `none` when the chosen step is not enabled in the given state. -/
def pipeStep (cap : Nat) (s : PipeState) : PipeLabel → Option PipeState
  | .rendezvous =>
    if 0 < s.pendingSends ∧ s.buffered = [] ∧ s.holding = false then
      some { s with pendingSends := s.pendingSends - 1, holding := true }
    else none
  | .bufferSend =>
    if 0 < s.pendingSends ∧ s.buffered.length < cap then
      some { s with pendingSends := s.pendingSends - 1, buffered := s.buffered ++ [()] }
    else none
  | .bufferRecv =>
    if s.buffered ≠ [] ∧ s.holding = false then
      some { s with buffered := s.buffered.tail, holding := true }
    else none
  | .dispatch =>
    if s.holding = true then
      some { s with holding := false, inProcess := s.inProcess + 1,
                    tasksPending := s.tasksPending + 1 }
    else none
  | .appendEntry =>
    if 0 < s.tasksPending then
      some { s with tasksPending := s.tasksPending - 1, logLen := s.logLen + 1,
                    tasksAppended := s.tasksAppended + 1 }
    else none
  | .decrement =>
    if 0 < s.tasksAppended then
      some { s with tasksAppended := s.tasksAppended - 1, inProcess := s.inProcess - 1 }
    else none

/-- Run a schedule, failing if any chosen step is disabled. -/
def pipeRun (cap : Nat) (s : PipeState) : List PipeLabel → Option PipeState
  | [] => some s
  | l :: ls =>
    match pipeStep cap s l with
    | none => none
    | some s' => pipeRun cap s' ls

/-- The pipeline state after the interceptor has started `n` publishes and
nothing else has happened. -/
def pipeInit (n : Nat) : PipeState :=
  ⟨n, [], false, 0, 0, 0, 0⟩

/-- The guard re-evaluated by `WaitForEntries` at line 264:
`len(proxy.entryChannel) > 0 || proxy.entriesInProcess > 0`. -/
def drainGuard (s : PipeState) : Bool :=
  decide (0 < s.buffered.length) || decide (0 < s.inProcess)

/-- On a zero-capacity channel every enabled step preserves an empty buffer. -/
theorem pipeStep_zero_cap_buffered {s s' : PipeState} {l : PipeLabel}
    (hb : s.buffered = []) (h : pipeStep 0 s l = some s') : s'.buffered = [] := by
  cases l <;> simp only [pipeStep] at h <;> split at h <;>
    first
      | (cases h; simpa using hb)
      | exact Option.noConfusion h
      | simp_all

/-- On a zero-capacity channel the buffer stays empty along every schedule. -/
theorem pipeRun_zero_cap_buffered {s0 : PipeState} (ls : List PipeLabel)
    {s : PipeState} (hb : s0.buffered = []) (h : pipeRun 0 s0 ls = some s) :
    s.buffered = [] := by
  induction ls generalizing s0 with
  | nil => cases h; exact hb
  | cons l ls ih =>
    simp only [pipeRun] at h
    cases hstep : pipeStep 0 s0 l with
    | none => rw [hstep] at h; exact Option.noConfusion h
    | some s1 =>
      rw [hstep] at h
      exact ih (pipeStep_zero_cap_buffered hb hstep) h

/-- The fields of `HarProxy` (`harproxy.go` lines 25-54) that the claims
touch, with the capture channel represented by the capacity it was created
with. -/
structure HarProxy where
  Port : Nat
  harLog : HarLog
  hostEntries : List ProxyHosts
  entryChannelCap : Nat
  entriesInProcess : Nat
deriving DecidableEq, Repr

/-- Embedding of `NewHarProxyWithPort` (`harproxy.go` lines 76-88): the
capture channel is created by `make(chan reqAndResp)` with no capacity
argument, i.e. capacity zero; the log starts empty, no host entries, the
in-process counter at zero. -/
def newHarProxyWithPort (port : Nat) : HarProxy :=
  { Port := port
    harLog := ⟨[]⟩
    hostEntries := []
    entryChannelCap := 0
    entriesInProcess := 0 }

/-- C10: the capture channel of a fresh instance has zero buffer capacity;
along every schedule on a zero-capacity channel the buffer occupancy stays
zero, so the drain guard of `WaitForEntries` reduces to the in-flight counter
being positive; a buffered send is never enabled, and the only way a publish
completes is the rendezvous step, which requires the consumer to be at its
receive and hands the transaction to it in the same step. -/
theorem entryChannel_unbuffered (port : Nat) :
    (newHarProxyWithPort port).entryChannelCap = 0 ∧
    (∀ (s0 : PipeState) (ls : List PipeLabel) (s : PipeState), s0.buffered = [] →
      pipeRun 0 s0 ls = some s →
      s.buffered = [] ∧ (drainGuard s = true ↔ 0 < s.inProcess)) ∧
    (∀ s : PipeState, pipeStep 0 s PipeLabel.bufferSend = none) ∧
    (∀ s s' : PipeState, pipeStep 0 s PipeLabel.rendezvous = some s' →
      s.holding = false ∧ s'.holding = true ∧ s'.pendingSends + 1 = s.pendingSends) := by
  refine ⟨rfl, ?_, ?_, ?_⟩
  · intro s0 ls s hb h
    have hbuf := pipeRun_zero_cap_buffered ls hb h
    refine ⟨hbuf, ?_⟩
    simp [drainGuard, hbuf]
  · intro s
    simp [pipeStep]
  · intro s s' h
    simp only [pipeStep] at h
    split at h
    · rename_i hcond
      cases h
      refine ⟨hcond.2.2, rfl, ?_⟩
      show s.pendingSends - 1 + 1 = s.pendingSends
      have := hcond.1
      omega
    · exact Option.noConfusion h

/-- Concrete check of C10: on the one-transaction instance the rendezvous is
the only enabled publish step, and after it the buffer is still empty while
the drain guard equals the counter test. -/
theorem entryChannel_unbuffered_witness :
    pipeStep 0 (pipeInit 1) PipeLabel.bufferSend = none ∧
    (⟨0, [], true, 0, 0, 0, 0⟩ : PipeState).buffered = [] ∧
    (drainGuard ⟨0, [], true, 0, 0, 0, 0⟩ = true ↔
      0 < (⟨0, [], true, 0, 0, 0, 0⟩ : PipeState).inProcess) := by
  have h := entryChannel_unbuffered 0
  have h2 := h.2.1 (pipeInit 1) [PipeLabel.rendezvous] ⟨0, [], true, 0, 0, 0, 0⟩
    rfl (by decide)
  exact ⟨h.2.2.1 (pipeInit 1), h2.1, h2.2⟩

/-- C2 evaluated at a failing schedule: one transaction (`N = 1`) is
forwarded; its publish completes by rendezvous with the consumer's receive at
line 148; before the consumer reaches the increment at line 153 the drain
guard of `WaitForEntries` already sees an empty channel and a zero counter,
so `WaitForEntries` returns at its first poll — with the log still empty, not
holding the one entry the claim promises for every scheduling order. -/
theorem drain_returns_with_missing_entry :
    pipeRun 0 (pipeInit 1) [PipeLabel.rendezvous] = some ⟨0, [], true, 0, 0, 0, 0⟩ ∧
    (⟨0, [], true, 0, 0, 0, 0⟩ : PipeState).pendingSends = 0 ∧
    drainGuard ⟨0, [], true, 0, 0, 0, 0⟩ = false ∧
    waitForEntries (fun _ => (0, 0)) 1 0 [] = some (0, []) ∧
    (⟨0, [], true, 0, 0, 0, 0⟩ : PipeState).logLen = 0 := by
  refine ⟨by decide, rfl, by decide, by decide, rfl⟩


/-! ### The Start/Stop shutdown handshake as a transition system (C1) -/

/-- Joint state of the serving goroutine spawned by `Start` (`harproxy.go`
lines 229-237), the per-connection handler goroutines, and a caller running
`Stop` (lines 241-248).  `servePhase`: 0 while `http.Serve` is in its accept
loop, 1 once it has returned (line 230), 2 once `close(proxy.entryChannel)`
has run (line 234), 3 once `proxy.isDone <- true` (line 235) has been
received and the goroutine is finished.  `stopPhase`: 0 before `Stop`,
1 after `StoppableListener.Add(1)` (line 243), 2 after
`StoppableListener.Close()` (line 244) while blocked at `<-proxy.isDone`
(line 245), 3 after the receive, 4 after `StoppableListener.Done()`
(line 246), at which point `Stop` returns.  `handlers` counts connections
`http.Serve` has accepted whose handler goroutine — the code that runs the
round tripper and the publish at line 117 — has not yet published; these
goroutines are independent of `servePhase`, since `http.Serve` returns as
soon as `Accept` fails on the closed listener without waiting for them, and
`stoppableListener` (lines 62-70) gives it no way to wait: its embedded
`WaitGroup` is never `Add`-ed per connection, never `Wait`-ed on, and there
is no `Accept` override.  `publishes` counts transactions delivered on the
open channel; `panicked` becomes true when a handler executes
`proxy.entryChannel <- *reqAndResp` after the channel is closed, which is a
Go runtime panic (send on closed channel). -/
structure ShutdownState where
  servePhase : Nat
  stopPhase : Nat
  listenerClosed : Bool
  chanClosed : Bool
  handlers : Nat
  publishes : Nat
  panicked : Bool
deriving DecidableEq, Repr

/-- Scheduler choices during shutdown.  `acceptConn` is `http.Serve`
accepting a connection and spawning its handler goroutine, possible only
while the accept loop runs on an open listener; `handlerPublish` is a handler
goroutine reaching the publish at line 117, possible whenever the handler is
still running, whatever `http.Serve` has done since; `isDoneSync` is the
rendezvous of the unbuffered send `proxy.isDone <- true` with the receive
`<-proxy.isDone`. -/
inductive ShutLabel
  | acceptConn
  | handlerPublish
  | serveExit
  | closeChan
  | wgAdd
  | closeListener
  | isDoneSync
  | wgDone
deriving DecidableEq, Repr

/-- One step of the shutdown interleaving; `none` when the step is not
enabled.  `http.Serve` returns once the stoppable listener has been closed,
regardless of running handlers; the serving goroutine then closes the capture
channel and signals `isDone`; `Stop` proceeds through its statements in
program order; a handler's publish delivers on an open channel and panics on
a closed one. -/
def shutStep (s : ShutdownState) : ShutLabel → Option ShutdownState
  | .acceptConn =>
    if s.servePhase = 0 ∧ s.listenerClosed = false then
      some { s with handlers := s.handlers + 1 }
    else none
  | .handlerPublish =>
    if 0 < s.handlers then
      if s.chanClosed then
        some { s with handlers := s.handlers - 1, panicked := true }
      else
        some { s with handlers := s.handlers - 1, publishes := s.publishes + 1 }
    else none
  | .serveExit =>
    if s.servePhase = 0 ∧ s.listenerClosed = true then
      some { s with servePhase := 1 }
    else none
  | .closeChan =>
    if s.servePhase = 1 then some { s with servePhase := 2, chanClosed := true } else none
  | .wgAdd =>
    if s.stopPhase = 0 then some { s with stopPhase := 1 } else none
  | .closeListener =>
    if s.stopPhase = 1 then some { s with stopPhase := 2, listenerClosed := true } else none
  | .isDoneSync =>
    if s.servePhase = 2 ∧ s.stopPhase = 2 then
      some { s with servePhase := 3, stopPhase := 3 }
    else none
  | .wgDone =>
    if s.stopPhase = 3 then some { s with stopPhase := 4 } else none

/-- Run a shutdown schedule, failing if any chosen step is disabled. -/
def shutRun (s : ShutdownState) : List ShutLabel → Option ShutdownState
  | [] => some s
  | l :: ls =>
    match shutStep s l with
    | none => none
    | some s' => shutRun s' ls

/-- The state right after `Start`: serving, `Stop` not yet called. -/
def shutInit : ShutdownState := ⟨0, 0, false, false, 0, 0, false⟩

/-- C1 evaluated at a failing schedule: one connection is accepted just
before `Stop`; `Stop` runs `Add(1)` and closes the listener; `http.Serve`
returns (its accept loop fails, the handler goroutine still running); the
serving goroutine closes the capture channel at line 234; then the handler's
round trip completes and it publishes at line 117 — a send on the closed
channel, a runtime panic, with the transaction never delivered.  The `isDone`
rendezvous and `Done` still complete, so `Stop` returns (stopPhase 4) having
performed both phases, yet the panic happened: the serving task's exit does
not guarantee that no more transactions will be published, and the consumer
side of the channel saw it closed while a forwarded transaction could still
publish into it — the very outcome the claim says the two-phase handshake
makes impossible. -/
theorem publish_after_close_panics :
    shutRun shutInit
      [ShutLabel.acceptConn, ShutLabel.wgAdd, ShutLabel.closeListener,
       ShutLabel.serveExit, ShutLabel.closeChan, ShutLabel.handlerPublish,
       ShutLabel.isDoneSync, ShutLabel.wgDone] =
      some ⟨3, 4, true, true, 0, 0, true⟩ ∧
    (⟨3, 4, true, true, 0, 0, true⟩ : ShutdownState).panicked = true ∧
    (⟨3, 4, true, true, 0, 0, true⟩ : ShutdownState).publishes = 0 ∧
    (⟨3, 4, true, true, 0, 0, true⟩ : ShutdownState).stopPhase = 4 := by
  refine ⟨by decide, rfl, rfl, rfl⟩
